import Mathlib

/-!
Verification of the admin configuration editor of the Telegram promo bot
(`src/main.py`).  The Python program is shallowly embedded: the configuration
record, the SQLite-backed store (`Config.init_db` / `Config.load_data` /
`Config.save_data`) and every conversation handler of `BotHandlers` become
executable Lean functions.  Python exceptions are modelled with `Except PyErr`;
machine state (the in-memory record, the database, and `context.user_data`)
is threaded explicitly.
-/

set_option autoImplicit false

/-- Decidable equality for `Except`, so that concrete handler runs can be
settled by `decide`. -/
instance exceptDecEq {ε α : Type} [DecidableEq ε] [DecidableEq α] :
    DecidableEq (Except ε α)
  | .error e, .error f =>
    if h : e = f then .isTrue (by rw [h]) else .isFalse (fun hc => h (by injection hc))
  | .error _, .ok _ => .isFalse (fun hc => Except.noConfusion hc)
  | .ok _, .error _ => .isFalse (fun hc => Except.noConfusion hc)
  | .ok a, .ok b =>
    if h : a = b then .isTrue (by rw [h]) else .isFalse (fun hc => h (by injection hc))

namespace PromoBot

/-! ## Python string primitives

Modelled over `List Char` so that every definition evaluates inside the
kernel.  Each function mirrors the Python `str` method the source calls. -/

/-- Python `s.split(sep)` on the character list. -/
def splitChar (sep : Char) : List Char → List (List Char)
  | [] => [[]]
  | c :: cs =>
    match splitChar sep cs with
    | [] => [[]]
    | r :: rs => if c == sep then [] :: r :: rs else (c :: r) :: rs

/-- Python `s.split(sep)` for a one-character separator. -/
def pySplit (s : String) (sep : Char) : List String :=
  (splitChar sep s.data).map String.mk

/-- Python `s.startswith(pre)`. -/
def pyStartsWith (s pre : String) : Bool :=
  List.isPrefixOf pre.data s.data

/-- Python slicing `s[:n]`. -/
def pyTake (s : String) (n : Nat) : String :=
  String.mk (s.data.take n)

/-- Python slicing `s[n:]`. -/
def pyDrop (s : String) (n : Nat) : String :=
  String.mk (s.data.drop n)

/-- ASCII whitespace, for the stripping `int()` performs. -/
def isWs (c : Char) : Bool :=
  c == ' ' || c == '\t' || c == '\n' || c == '\r'

/-- Value of a non-empty all-digit character list. -/
def digitsVal? (cs : List Char) : Option Nat :=
  if cs.isEmpty then none
  else cs.foldl (fun acc c =>
    match acc with
    | none => none
    | some n => if c.isDigit then some (n * 10 + (c.toNat - 48)) else none) (some 0)

/-- Python `int(s)` on decimal strings: strips whitespace, accepts an optional
sign, requires at least one digit; `none` models the `ValueError` raised
otherwise. -/
def pyInt? (s : String) : Option Int :=
  let cs := ((s.data.dropWhile isWs).reverse.dropWhile isWs).reverse
  match cs with
  | '-' :: rest => (digitsVal? rest).map (fun n => -(n : Int))
  | '+' :: rest => (digitsVal? rest).map (fun n => (n : Int))
  | _ => (digitsVal? cs).map (fun n => (n : Int))

/-- Python exceptions that the handlers can raise past their own
`try`/`except` blocks (`except TelegramError` does not catch these). -/
inductive PyErr where
  | attrError
  | keyError
  | typeError
  | valueError
deriving DecidableEq

/-- Environment variables read at import time (`os.getenv`).  A `none` value
models an unset variable.  `CHANNEL_i_URL` is read without a default
(`os.getenv("CHANNEL_1_URL", )` is `os.getenv("CHANNEL_1_URL")`), the image
and text variables are read with default `""` (applied in `DEFAULT_CONFIG`). -/
structure Env where
  bot_token : Option String
  admin_chat_id : Option String
  channel_1_url : Option String
  channel_2_url : Option String
  channel_3_url : Option String
  channel_4_url : Option String
  channel_5_url : Option String
  image_1_url : Option String
  image_2_url : Option String
  image_3_url : Option String
  image_4_url : Option String
  image_5_url : Option String
  image_6_url : Option String
  promo_text_env : Option String
  promo_link_env : Option String
  jaiho_link_env : Option String
  claim_link_env : Option String
deriving DecidableEq

/-- The in-memory configuration record (`self.data`): a Python dict with keys
`channels`, `images`, `promo_text`, `promo_link`, `jaiho_link`, `claim_link`.
Channel values can be Python `None` (an unset `CHANNEL_i_URL` default), hence
`Option String`. -/
structure ConfigData where
  channels : List (String × Option String)
  images : List String
  promo_text : String
  promo_link : String
  jaiho_link : String
  claim_link : String
deriving DecidableEq

/-- `Config.DEFAULT_CONFIG`, built from the environment. -/
def DEFAULT_CONFIG (env : Env) : ConfigData :=
  { channels :=
      [("1", env.channel_1_url), ("2", env.channel_2_url), ("3", env.channel_3_url),
       ("4", env.channel_4_url), ("5", env.channel_5_url)]
    images :=
      [env.image_1_url.getD "", env.image_2_url.getD "", env.image_3_url.getD "",
       env.image_4_url.getD "", env.image_5_url.getD "", env.image_6_url.getD ""]
    promo_text := env.promo_text_env.getD ""
    promo_link := env.promo_link_env.getD ""
    jaiho_link := env.jaiho_link_env.getD ""
    claim_link := env.claim_link_env.getD "" }

/-- Python dict lookup `m[k]` / `m.get(k)` on an association list. -/
def dictLookup {α : Type} : List (String × α) → String → Option α
  | [], _ => none
  | (k2, v) :: rest, k => if k2 == k then some v else dictLookup rest k

/-- Python dict assignment `m[k] = v`: replaces the value of an existing key in
place, otherwise appends the new pair (insertion order semantics). -/
def dictSet {α : Type} : List (String × α) → String → α → List (String × α)
  | [], k, v => [(k, v)]
  | (k2, v2) :: rest, k, v =>
      if k2 == k then (k2, v) :: rest else (k2, v2) :: dictSet rest k v

/-- The rows of the SQLite database `bot_data.db`: tables
`channels(id TEXT PRIMARY KEY, url TEXT NOT NULL)`,
`images(id INTEGER PRIMARY KEY, url TEXT NOT NULL)`,
`texts(key TEXT PRIMARY KEY, value TEXT NOT NULL)`. -/
structure DbState where
  channels : List (String × String)
  images : List (Int × String)
  texts : List (String × String)
deriving DecidableEq

/-- Durable storage: either a readable database or a state (absent file with no
tables, corrupt file, failing disk) in which every SQL statement raises
`sqlite3.Error`. -/
inductive Storage where
  | ok (db : DbState)
  | err
deriving DecidableEq

/-- `INSERT OR REPLACE` on a table with a primary-key column: the conflicting
row is deleted and the new row inserted. -/
def rowUpsert (rows : List (String × String)) (k v : String) : List (String × String) :=
  rows.filter (fun p => p.1 != k) ++ [(k, v)]

/-- `enumerate(xs, i)` as used for image ids: pairs each url with its 1-based id. -/
def enumFromI (i : Int) : List String → List (Int × String)
  | [] => []
  | x :: xs => (i, x) :: enumFromI (i + 1) xs

/-- Insert a row into a list sorted by id (helper for `ORDER BY id`). -/
def insertRow (r : Int × String) : List (Int × String) → List (Int × String)
  | [] => [r]
  | x :: xs => if r.1 ≤ x.1 then r :: x :: xs else x :: insertRow r xs

/-- `SELECT ... ORDER BY id`: stable sort of the image rows by id. -/
def sortRows : List (Int × String) → List (Int × String)
  | [] => []
  | x :: xs => insertRow x (sortRows xs)

/-- The four text rows written by `save_data` / `init_db`, in source order. -/
def textsOf (d : ConfigData) : List (String × String) :=
  [("promo_text", d.promo_text), ("promo_link", d.promo_link),
   ("jaiho_link", d.jaiho_link), ("claim_link", d.claim_link)]

/-- `Config.init_db`: creates the three tables and seeds any empty table from
`DEFAULT_CONFIG`.  A `sqlite3.Error` (unreadable storage, or a `NOT NULL`
violation from a `None` channel default) is logged and re-raised (`raise`),
modelled as `none`; since `BotHandlers()` is constructed outside `main`'s
`try`, this crashes the process. -/
def init_db (env : Env) : Storage → Option Storage
  | .err => none
  | .ok db =>
    let dc := DEFAULT_CONFIG env
    match (if db.channels.isEmpty then
             (if dc.channels.any (fun p => p.2 == none) then none
              else some (dc.channels.map (fun p => (p.1, p.2.getD ""))))
           else some db.channels) with
    | none => none
    | some chRows =>
      let imRows := if db.images.isEmpty then enumFromI 1 dc.images else db.images
      let txRows := if db.texts.isEmpty then textsOf dc else db.texts
      some (.ok ⟨chRows, imRows, txRows⟩)

/-- `Config.load_data`: reads the three tables; any `sqlite3.Error` is caught
and `DEFAULT_CONFIG` returned instead.  Channels become a dict in row order,
images are the urls ordered by id, and each text field falls back to its
`DEFAULT_CONFIG` value when its row is missing (`texts.get(key, default)`). -/
def load_data (env : Env) : Storage → ConfigData
  | .err => DEFAULT_CONFIG env
  | .ok db =>
    { channels := db.channels.map (fun p => (p.1, some p.2))
      images := (sortRows db.images).map Prod.snd
      promo_text := (dictLookup db.texts "promo_text").getD (DEFAULT_CONFIG env).promo_text
      promo_link := (dictLookup db.texts "promo_link").getD (DEFAULT_CONFIG env).promo_link
      jaiho_link := (dictLookup db.texts "jaiho_link").getD (DEFAULT_CONFIG env).jaiho_link
      claim_link := (dictLookup db.texts "claim_link").getD (DEFAULT_CONFIG env).claim_link }

/-- `Config.save_data`: upserts every channel row, deletes and rewrites the
image rows with ids `1..n`, and upserts the four text rows.  Every statement
runs in one transaction (`with sqlite3.connect(...)`), so any `sqlite3.Error`
(unreadable storage, or a `NOT NULL` violation from a `None` channel value)
rolls the whole write back; the error is caught and only logged, so the
caller never sees a failure. -/
def save_data (d : ConfigData) : Storage → Storage
  | .err => .err
  | .ok db =>
    if d.channels.any (fun p => p.2 == none) then .ok db
    else .ok
      { channels := d.channels.foldl (fun rs p => rowUpsert rs p.1 (p.2.getD "")) db.channels
        images := enumFromI 1 d.images
        texts := (textsOf d).foldl (fun rs p => rowUpsert rs p.1 p.2) db.texts }

/-! ## Conversation states (`range(11)` plus `ConversationHandler.END`) -/

def ADMIN_START : Int := 0
def EDIT_CHOOSE_OPTION : Int := 1
def EDIT_CHANNELS : Int := 2
def EDIT_IMAGES : Int := 3
def EDIT_TEXTS : Int := 4
def EDIT_SINGLE_CHANNEL : Int := 5
def EDIT_SINGLE_IMAGE : Int := 6
def EDIT_PROMO_TEXT : Int := 7
def EDIT_PROMO_LINK : Int := 8
def EDIT_JAIHO_LINK : Int := 9
def EDIT_CLAIM_LINK : Int := 10

/-- `ConversationHandler.END`. -/
def END : Int := -1

/-- `context.user_data` entries the wizard writes: the pending channel key
(`editing_channel`, a string) and the pending image index
(`editing_image`, a 0-based Python int). -/
structure UserData where
  editing_channel : Option String
  editing_image : Option Int
deriving DecidableEq

/-- The machine state a handler can read and write: the in-memory record
`self.data`, the database file, and the per-chat `user_data`. -/
structure MState where
  data : ConfigData
  storage : Storage
  ud : UserData
deriving DecidableEq

/-- Result of one handler call: the new machine state, the texts sent to the
chat (in order), and the value returned to `ConversationHandler`
(`some s` = next state, `none` = Python `None`, keep the current state). -/
structure HRes where
  st : MState
  msgs : List String
  ret : Option Int
deriving DecidableEq

def unauthorizedMsg : String := "Unauthorized access!"
def adminMenuMsg : String := "Admin Panel - Choose what to edit:"
def errorMsg : String := "An error occurred. Please try again."

/-- `BotHandlers.is_admin`: `str(update.effective_user.id) == Config.ADMIN_CHAT_ID`
(comparison with an unset `ADMIN_CHAT_ID`, i.e. `None`, is `False`). -/
def is_admin (env : Env) (uid : Int) : Bool :=
  match env.admin_chat_id with
  | none => false
  | some a => toString uid == a

/-- `BotHandlers.admin_start`.  `message` is `update.message`'s text when the
update carries a message (`none` for a callback-query update, in which case
`update.message.reply_text` raises `AttributeError`).  A non-admin gets the
refusal and `END`; the admin gets the top-level menu and `EDIT_CHOOSE_OPTION`. -/
def admin_start (env : Env) (s : MState) (uid : Int) (message : Option String) :
    Except PyErr HRes :=
  if !(is_admin env uid) then
    match message with
    | none => .error .attrError
    | some _ => .ok ⟨s, [unauthorizedMsg], some END⟩
  else
    match message with
    | none => .error .attrError
    | some _ => .ok ⟨s, [adminMenuMsg], some EDIT_CHOOSE_OPTION⟩

/-- `self.data['channels'][k][:20]` used for a button label: `KeyError` when
the key is missing, `TypeError` when the stored value is `None`. -/
def channelLabel (m : List (String × Option String)) (k : String) : Except PyErr String :=
  match dictLookup m k with
  | none => .error .keyError
  | some none => .error .typeError
  | some (some v) => .ok (pyTake v 20)

/-- `BotHandlers.admin_choose_option`: branch on the callback data; unknown
data falls off the end of the function (Python returns `None`). -/
def admin_choose_option (s : MState) (cb : String) : Except PyErr HRes :=
  if cb == "edit_channels" then do
    let _ ← channelLabel s.data.channels "1"
    let _ ← channelLabel s.data.channels "2"
    let _ ← channelLabel s.data.channels "3"
    let _ ← channelLabel s.data.channels "4"
    let _ ← channelLabel s.data.channels "5"
    .ok ⟨s, ["Select channel to edit:"], some EDIT_CHANNELS⟩
  else if cb == "edit_images" then
    .ok ⟨s, ["Select image to edit:"], some EDIT_IMAGES⟩
  else if cb == "edit_texts" then
    .ok ⟨s, ["Select text to edit:"], some EDIT_TEXTS⟩
  else if cb == "cancel" then
    .ok ⟨s, ["Admin panel closed."], some END⟩
  else
    .ok ⟨s, [], none⟩

/-- `query.data.split('_')[-1]`. -/
def lastSegment (s : String) : String :=
  (pySplit s '_').getLastD ""

/-- `BotHandlers.edit_channels`: remember the chosen channel key in
`user_data` and prompt; `back` re-runs `admin_start` on a callback update
whose `update.message` is `None`. -/
def edit_channels (env : Env) (s : MState) (uid : Int) (cb : String) : Except PyErr HRes :=
  if pyStartsWith cb "edit_channel_" then
    let channel_num := lastSegment cb
    .ok ⟨{ s with ud := { s.ud with editing_channel := some channel_num } },
         ["Enter new URL for Channel " ++ channel_num ++ ":"], some EDIT_SINGLE_CHANNEL⟩
  else if cb == "back" then
    admin_start env s uid none
  else
    .ok ⟨s, [], none⟩

/-- `BotHandlers.edit_images`: parse the 1-based image number from the
callback data and remember the 0-based index; a non-numeric suffix raises
`ValueError` (not caught by `except TelegramError`). -/
def edit_images (env : Env) (s : MState) (uid : Int) (cb : String) : Except PyErr HRes :=
  if pyStartsWith cb "edit_image_" then
    match pyInt? (lastSegment cb) with
    | none => .error .valueError
    | some n =>
      let img_num := n - 1
      .ok ⟨{ s with ud := { s.ud with editing_image := some img_num } },
           ["Enter new URL for Image " ++ toString (img_num + 1) ++ ":"],
           some EDIT_SINGLE_IMAGE⟩
  else if cb == "back" then
    admin_start env s uid none
  else
    .ok ⟨s, [], none⟩

/-- `BotHandlers.edit_texts`: route to the four text-field states. -/
def edit_texts (env : Env) (s : MState) (uid : Int) (cb : String) : Except PyErr HRes :=
  if cb == "edit_promo_text" then
    .ok ⟨s, ["Enter new promo text:"], some EDIT_PROMO_TEXT⟩
  else if cb == "edit_promo_link" then
    .ok ⟨s, ["Enter new promo link:"], some EDIT_PROMO_LINK⟩
  else if cb == "edit_jaiho_link" then
    .ok ⟨s, ["Enter new JaiHo link:"], some EDIT_JAIHO_LINK⟩
  else if cb == "edit_claim_link" then
    .ok ⟨s, ["Enter new claim link:"], some EDIT_CLAIM_LINK⟩
  else if cb == "back" then
    admin_start env s uid none
  else
    .ok ⟨s, [], none⟩

/-- `BotHandlers.edit_single_channel`: reads `user_data['editing_channel']`
(`KeyError` when absent, raised outside the `try`), assigns the submitted text
into the channels dict with no validation, saves, reports success, and
re-renders the menu via `admin_start`. -/
def edit_single_channel (env : Env) (s : MState) (uid : Int) (text : String) :
    Except PyErr HRes :=
  match s.ud.editing_channel with
  | none => .error .keyError
  | some channel_num =>
    let data2 := { s.data with channels := dictSet s.data.channels channel_num (some text) }
    let st2 := save_data data2 s.storage
    let s2 : MState := ⟨data2, st2, s.ud⟩
    let okMsg := "Channel " ++ channel_num ++ " updated successfully!"
    match admin_start env s2 uid (some text) with
    | .ok r => .ok ⟨r.st, okMsg :: r.msgs, r.ret⟩
    | .error _ => .ok ⟨s2, [okMsg, errorMsg], some END⟩

/-- Python list assignment `xs[i] = v`: negative indices count from the end,
an out-of-range index raises `IndexError` (`none`). -/
def pyListSet (xs : List String) (i : Int) (v : String) : Option (List String) :=
  let n : Int := xs.length
  let j := if i < 0 then i + n else i
  if 0 ≤ j ∧ j < n then some (xs.set j.toNat v) else none

/-- `BotHandlers.edit_single_image`: reads `user_data['editing_image']`
(`KeyError` when absent, raised outside the `try`), assigns the submitted text
into the images list with no validation (`IndexError` is caught by
`except Exception`, reporting the generic error and ending the conversation),
saves, reports success, and re-renders the menu via `admin_start`. -/
def edit_single_image (env : Env) (s : MState) (uid : Int) (text : String) :
    Except PyErr HRes :=
  match s.ud.editing_image with
  | none => .error .keyError
  | some img_num =>
    match pyListSet s.data.images img_num text with
    | none => .ok ⟨s, [errorMsg], some END⟩
    | some imgs2 =>
      let data2 := { s.data with images := imgs2 }
      let st2 := save_data data2 s.storage
      let s2 : MState := ⟨data2, st2, s.ud⟩
      let okMsg := "Image " ++ toString (img_num + 1) ++ " updated successfully!"
      match admin_start env s2 uid (some text) with
      | .ok r => .ok ⟨r.st, okMsg :: r.msgs, r.ret⟩
      | .error _ => .ok ⟨s2, [okMsg, errorMsg], some END⟩

/-- `BotHandlers.edit_promo_text`: assign, save, confirm, back to the menu. -/
def edit_promo_text (env : Env) (s : MState) (uid : Int) (text : String) :
    Except PyErr HRes :=
  let data2 := { s.data with promo_text := text }
  let st2 := save_data data2 s.storage
  let s2 : MState := ⟨data2, st2, s.ud⟩
  let okMsg := "Promo text updated successfully!"
  match admin_start env s2 uid (some text) with
  | .ok r => .ok ⟨r.st, okMsg :: r.msgs, r.ret⟩
  | .error _ => .ok ⟨s2, [okMsg, errorMsg], some END⟩

/-- `BotHandlers.edit_promo_link`. -/
def edit_promo_link (env : Env) (s : MState) (uid : Int) (text : String) :
    Except PyErr HRes :=
  let data2 := { s.data with promo_link := text }
  let st2 := save_data data2 s.storage
  let s2 : MState := ⟨data2, st2, s.ud⟩
  let okMsg := "Promo link updated successfully!"
  match admin_start env s2 uid (some text) with
  | .ok r => .ok ⟨r.st, okMsg :: r.msgs, r.ret⟩
  | .error _ => .ok ⟨s2, [okMsg, errorMsg], some END⟩

/-- `BotHandlers.edit_jaiho_link`. -/
def edit_jaiho_link (env : Env) (s : MState) (uid : Int) (text : String) :
    Except PyErr HRes :=
  let data2 := { s.data with jaiho_link := text }
  let st2 := save_data data2 s.storage
  let s2 : MState := ⟨data2, st2, s.ud⟩
  let okMsg := "JaiHo link updated successfully!"
  match admin_start env s2 uid (some text) with
  | .ok r => .ok ⟨r.st, okMsg :: r.msgs, r.ret⟩
  | .error _ => .ok ⟨s2, [okMsg, errorMsg], some END⟩

/-- `BotHandlers.edit_claim_link`. -/
def edit_claim_link (env : Env) (s : MState) (uid : Int) (text : String) :
    Except PyErr HRes :=
  let data2 := { s.data with claim_link := text }
  let st2 := save_data data2 s.storage
  let s2 : MState := ⟨data2, st2, s.ud⟩
  let okMsg := "Claim link updated successfully!"
  match admin_start env s2 uid (some text) with
  | .ok r => .ok ⟨r.st, okMsg :: r.msgs, r.ret⟩
  | .error _ => .ok ⟨s2, [okMsg, errorMsg], some END⟩

/-- `BotHandlers.cancel_admin`. -/
def cancel_admin (s : MState) : Except PyErr HRes :=
  .ok ⟨s, ["Admin panel closed."], some END⟩

/-- Python truthiness of an optional string (`if not Config.BOT_TOKEN`):
`None` and `""` are falsy. -/
def truthy : Option String → Bool
  | none => false
  | some s => s != ""

/-- The outcome of `main()` before any traffic is handled. -/
inductive StartupResult where
  | exited (code : Nat)
  | crashed
  | running (s : MState)
deriving DecidableEq

/-- `running` discriminator. -/
def StartupResult.isRunning : StartupResult → Bool
  | .running _ => true
  | _ => false

/-- `main()` up to `app.run_polling()`: exit(1) when `BOT_TOKEN` or
`ADMIN_CHAT_ID` is missing/empty; otherwise construct `BotHandlers`
(`init_db` then `load_data`; an `init_db` error crashes, since the
constructor runs before `main`'s `try`) and start serving.  No URL is
validated anywhere on this path. -/
def pymain (env : Env) (st : Storage) : StartupResult :=
  if !(truthy env.bot_token) then .exited 1
  else if !(truthy env.admin_chat_id) then .exited 1
  else
    match init_db env st with
    | none => .crashed
    | some st1 => .running ⟨load_data env st1, st1, ⟨none, none⟩⟩

/-! ## Validators, modelled from the spec

The repository contains no URL validator: no handler in `src/main.py` checks
a submitted value.  The two predicates below are the spec's (§4.3), written
here only so that theorems can speak about valid and invalid inputs. -/

/-- Modelled from the spec: `isGenericUrl(s)` — true iff `s` is an absolute
URL with scheme `http` or `https` and a non-empty host.  No such function
exists in the source. -/
def isGenericUrl (s : String) : Bool :=
  if pyStartsWith s "http://" then !((s.data.drop 7).takeWhile (fun c => c != '/')).isEmpty
  else if pyStartsWith s "https://" then !((s.data.drop 8).takeWhile (fun c => c != '/')).isEmpty
  else false

/-- Modelled from the spec: `isChannelUrl(s)` — `isGenericUrl(s)` and `s`
starts with the platform's private-invite-link prefix (`https://t.me/+`).
No such function exists in the source. -/
def isChannelUrl (s : String) : Bool :=
  isGenericUrl s && pyStartsWith s "https://t.me/+"

/-! ## Well-formed database states

A state the program itself produces: unique channel ids, image ids `1..n` in
order, and exactly the four text keys in the order `init_db`/`save_data`
write them. -/

/-- Image rows have strictly increasing adjacent ids. -/
def IdsChain : List (Int × String) → Prop
  | [] => True
  | [_] => True
  | a :: b :: rest => a.1 < b.1 ∧ IdsChain (b :: rest)

/-- Canonical key list of the `texts` table. -/
def textKeys : List String := ["promo_text", "promo_link", "jaiho_link", "claim_link"]

/-- A well-formed persisted state. -/
def WfDb (db : DbState) : Prop :=
  (db.channels.map Prod.fst).Nodup ∧
  db.images = enumFromI 1 (db.images.map Prod.snd) ∧
  db.texts.map Prod.fst = textKeys

instance (db : DbState) : Decidable (WfDb db) := by
  unfold WfDb
  infer_instance

/-! ## Association-list lemmas -/

theorem dictLookup_dictSet_self {α : Type} (m : List (String × α)) (k : String) (v : α) :
    dictLookup (dictSet m k v) k = some v := by
  induction m with
  | nil => simp [dictSet, dictLookup]
  | cons p rest ih =>
    obtain ⟨k2, v2⟩ := p
    by_cases h : k2 == k
    · simp [dictSet, dictLookup, h]
    · simp only [dictSet, dictLookup, h, if_false, Bool.false_eq_true, ite_false]
      exact ih

theorem dictLookup_dictSet_ne {α : Type} (m : List (String × α)) (k k' : String) (v : α)
    (h : k' ≠ k) : dictLookup (dictSet m k v) k' = dictLookup m k' := by
  induction m with
  | nil =>
    simp only [dictSet, dictLookup]
    rw [if_neg (by simpa using fun hc => h hc.symm)]
  | cons p rest ih =>
    obtain ⟨k2, v2⟩ := p
    by_cases h2 : k2 == k
    · have hk2 : k2 = k := by simpa using h2
      simp only [dictSet, h2, if_true]
      simp only [dictLookup]
      rw [if_neg (by simpa using fun hc => h (hk2 ▸ hc).symm),
          if_neg (by simpa using fun hc => h (hk2 ▸ hc).symm)]
    · simp only [dictSet, h2, Bool.false_eq_true, ite_false, dictLookup]
      by_cases h3 : k2 == k'
      · simp [h3]
      · simp only [h3, Bool.false_eq_true, ite_false]
        exact ih

theorem dictSet_map_fst_of_mem {α : Type} (m : List (String × α)) (k : String) (v : α)
    (h : k ∈ m.map Prod.fst) : (dictSet m k v).map Prod.fst = m.map Prod.fst := by
  induction m with
  | nil => simp at h
  | cons p rest ih =>
    obtain ⟨k2, v2⟩ := p
    by_cases h2 : k2 == k
    · simp [dictSet, h2]
    · have hne : k2 ≠ k := by simpa using h2
      simp only [List.map_cons, List.mem_cons] at h
      have hk : k ∈ rest.map Prod.fst := by
        rcases h with h | h
        · exact absurd h.symm hne
        · exact h
      simp only [dictSet, h2, Bool.false_eq_true, ite_false, List.map_cons]
      rw [ih hk]

theorem dictLookup_some_of {m : List (String × Option String)} {k : String}
    (h1 : k ∈ m.map Prod.fst) (h2 : ∀ p ∈ m, p.2 ≠ none) :
    ∃ w, dictLookup m k = some (some w) := by
  induction m with
  | nil => simp at h1
  | cons p rest ih =>
    obtain ⟨k2, v2⟩ := p
    by_cases hk : k2 == k
    · cases v2 with
      | none => exact absurd rfl (h2 ⟨k2, none⟩ (List.mem_cons_self _ _))
      | some w => exact ⟨w, by simp [dictLookup, hk]⟩
    · have hne : k2 ≠ k := by simpa using hk
      simp only [List.map_cons, List.mem_cons] at h1
      have h1r : k ∈ rest.map Prod.fst := by
        rcases h1 with h | h
        · exact absurd h.symm hne
        · exact h
      have h2r : ∀ p ∈ rest, p.2 ≠ none := fun p hp => h2 p (List.mem_cons_of_mem _ hp)
      obtain ⟨w, hw⟩ := ih h1r h2r
      exact ⟨w, by simp [dictLookup, hk, hw]⟩

theorem dictLookup_append_right (A B : List (String × String)) (k : String)
    (hA : ∀ p ∈ A, p.1 ≠ k) : dictLookup (A ++ B) k = dictLookup B k := by
  induction A with
  | nil => simp
  | cons p rest ih =>
    obtain ⟨k2, v2⟩ := p
    have hne : k2 ≠ k := hA ⟨k2, v2⟩ (List.mem_cons_self _ _)
    simp only [List.cons_append, dictLookup]
    rw [if_neg (by simpa using hne)]
    exact ih fun p hp => hA p (List.mem_cons_of_mem _ hp)

/-- Values of a channel dict as stored in the database (`NOT NULL` strings). -/
def stripVals (ch : List (String × Option String)) : List (String × String) :=
  ch.map (fun p => (p.1, p.2.getD ""))

theorem stripVals_map_fst (ch : List (String × Option String)) :
    (stripVals ch).map Prod.fst = ch.map Prod.fst := by
  induction ch with
  | nil => rfl
  | cons p rest ih => simp only [stripVals, List.map_cons] at ih ⊢; rw [ih]

theorem dictLookup_stripVals {ch : List (String × Option String)} {k : String} {w : String}
    (h : dictLookup ch k = some (some w)) : dictLookup (stripVals ch) k = some w := by
  induction ch with
  | nil => simp [dictLookup] at h
  | cons p rest ih =>
    obtain ⟨k2, v2⟩ := p
    by_cases hk : k2 == k
    · simp only [dictLookup, hk, if_true] at h
      cases h
      simp [stripVals, dictLookup, hk]
    · simp only [dictLookup, hk, Bool.false_eq_true, ite_false] at h
      simpa [stripVals, dictLookup, hk] using ih h

theorem any_none_eq_false {ch : List (String × Option String)}
    (h : ∀ p ∈ ch, p.2 ≠ none) : ch.any (fun p => p.2 == none) = false := by
  rw [List.any_eq_false]
  intro p hp
  cases hv : p.2 with
  | none => exact absurd hv (h p hp)
  | some w => simp [hv]

/-- Boolean membership in a key list (kernel-friendly `contains`). -/
def keyElem (k : String) : List String → Bool
  | [] => false
  | x :: xs => (x == k) || keyElem k xs

theorem keyElem_eq_true {k : String} {ks : List String} (h : k ∈ ks) :
    keyElem k ks = true := by
  induction ks with
  | nil => simp at h
  | cons x xs ih =>
    rcases List.mem_cons.mp h with rfl | h
    · simp [keyElem]
    · simp [keyElem, ih h]

theorem keyElem_eq_false {k : String} {ks : List String} (h : k ∉ ks) :
    keyElem k ks = false := by
  induction ks with
  | nil => rfl
  | cons x xs ih =>
    have hx : x ≠ k := fun hc => h (hc ▸ List.mem_cons_self _ _)
    have hxs : k ∉ xs := fun hc => h (List.mem_cons_of_mem _ hc)
    simp [keyElem, hx, ih hxs]

/-- Replaying a sequence of `INSERT OR REPLACE` statements with pairwise
distinct keys: the rows not mentioned stay (minus shadowed keys, of which
there are none when the keys are fresh) and the new rows land in statement
order. -/
theorem foldl_rowUpsert (L : List (String × String)) (acc : List (String × String))
    (h : (L.map Prod.fst).Nodup) :
    L.foldl (fun rs p => rowUpsert rs p.1 p.2) acc
      = acc.filter (fun p => !keyElem p.1 (L.map Prod.fst)) ++ L := by
  induction L generalizing acc with
  | nil => simp [keyElem]
  | cons q L ih =>
    obtain ⟨k, v⟩ := q
    simp only [List.map_cons, List.nodup_cons] at h
    obtain ⟨hk, hnd⟩ := h
    simp only [List.foldl_cons]
    rw [ih _ hnd]
    simp only [rowUpsert, List.filter_append]
    have h1 : List.filter (fun p => !keyElem p.1 (L.map Prod.fst)) [(k, v)] = [(k, v)] := by
      simp [List.filter, keyElem_eq_false hk]
    rw [h1, List.filter_filter]
    have h2 : ∀ p : String × String,
        (!keyElem p.1 (k :: L.map Prod.fst)) = ((!keyElem p.1 (L.map Prod.fst)) && (p.1 != k)) := by
      intro p
      by_cases hpk : p.1 = k
      · subst hpk
        simp [keyElem]
      · have : (k == p.1) = false := by
          simp only [beq_eq_false_iff_ne, ne_eq]
          exact fun hc => hpk hc.symm
        simp [keyElem, this, bne, hpk]
    have h3 : List.filter (fun p => !keyElem p.1 (k :: L.map Prod.fst)) acc
        = List.filter (fun p => (!keyElem p.1 (L.map Prod.fst)) && (p.1 != k)) acc :=
      List.filter_congr (fun p _ => h2 p)
    simp only [List.map_cons]
    rw [h3, List.append_assoc]
    rfl

theorem filter_not_keyElem_self (l : List (String × String)) :
    l.filter (fun p => !keyElem p.1 (l.map Prod.fst)) = [] := by
  rw [List.filter_eq_nil_iff]
  intro p hp
  have : keyElem p.1 (l.map Prod.fst) = true :=
    keyElem_eq_true (List.mem_map_of_mem Prod.fst hp)
  simp [this]

/-- A fold of channel upserts is the same fold over the stripped rows. -/
theorem foldl_rowUpsert_strip (ch : List (String × Option String))
    (init : List (String × String)) :
    ch.foldl (fun rs p => rowUpsert rs p.1 (p.2.getD "")) init
      = (stripVals ch).foldl (fun rs q => rowUpsert rs q.1 q.2) init := by
  induction ch generalizing init with
  | nil => rfl
  | cons p rest ih => simp only [stripVals, List.map_cons, List.foldl_cons] at ih ⊢; rw [ih]

theorem idsChain_tail {a : Int × String} {l : List (Int × String)}
    (h : IdsChain (a :: l)) : IdsChain l := by
  cases l with
  | nil => trivial
  | cons b r => exact h.2

theorem idsChain_enumFromI (xs : List String) : ∀ i : Int, IdsChain (enumFromI i xs) := by
  induction xs with
  | nil => intro i; trivial
  | cons x xs ih =>
    intro i
    cases xs with
    | nil => trivial
    | cons y ys =>
      refine ⟨by omega, ?_⟩
      exact ih (i + 1)

theorem sortRows_of_chain : ∀ l : List (Int × String), IdsChain l → sortRows l = l := by
  intro l
  induction l with
  | nil => intro _; rfl
  | cons a l ih =>
    intro h
    rw [sortRows, ih (idsChain_tail h)]
    cases l with
    | nil => rfl
    | cons b r =>
      have hab : a.1 ≤ b.1 := le_of_lt h.1
      simp [insertRow, hab]

theorem enumFromI_map_snd (xs : List String) : ∀ i : Int, (enumFromI i xs).map Prod.snd = xs := by
  induction xs with
  | nil => intro _; rfl
  | cons x xs ih => intro i; simp [enumFromI, ih (i + 1)]

theorem pyListSet_of_lt {xs : List String} {i : Int} {v : String}
    (h0 : 0 ≤ i) (h1 : i < (xs.length : Int)) :
    pyListSet xs i v = some (xs.set i.toNat v) := by
  simp only [pyListSet]
  rw [if_neg (by omega : ¬ i < 0)]
  rw [if_pos ⟨h0, h1⟩]

theorem dictSet_all_some {ch : List (String × Option String)} {k v : String}
    (h : ∀ p ∈ ch, p.2 ≠ none) :
    ∀ p ∈ dictSet ch k (some v), p.2 ≠ none := by
  induction ch with
  | nil =>
    intro p hp
    simp only [dictSet, List.mem_singleton] at hp
    simp [hp]
  | cons q rest ih =>
    obtain ⟨k2, v2⟩ := q
    intro p hp
    by_cases hk : k2 == k
    · simp only [dictSet, hk, if_true, List.mem_cons] at hp
      rcases hp with rfl | hp
      · simp
      · exact h p (List.mem_cons_of_mem _ hp)
    · simp only [dictSet, hk, Bool.false_eq_true, ite_false, List.mem_cons] at hp
      rcases hp with rfl | hp
      · exact h ⟨k2, v2⟩ (List.mem_cons_self _ _)
      · exact ih (fun q hq => h q (List.mem_cons_of_mem _ hq)) p hp

/-! ## Handler reduction lemmas -/

theorem admin_start_some_admin (env : Env) (s : MState) (uid : Int) (msg : String)
    (h : is_admin env uid = true) :
    admin_start env s uid (some msg) = .ok ⟨s, [adminMenuMsg], some EDIT_CHOOSE_OPTION⟩ := by
  simp [admin_start, h]

theorem admin_start_some_not_admin (env : Env) (s : MState) (uid : Int) (msg : String)
    (h : is_admin env uid = false) :
    admin_start env s uid (some msg) = .ok ⟨s, [unauthorizedMsg], some END⟩ := by
  simp [admin_start, h]

theorem admin_start_none (env : Env) (s : MState) (uid : Int) :
    admin_start env s uid none = .error .attrError := by
  by_cases h : is_admin env uid <;> simp [admin_start, h]

theorem admin_start_some_st (env : Env) (s : MState) (uid : Int) (msg : String) :
    ∃ m t, admin_start env s uid (some msg) = .ok ⟨s, m, t⟩ := by
  by_cases h : is_admin env uid
  · exact ⟨_, _, admin_start_some_admin env s uid msg h⟩
  · exact ⟨_, _, admin_start_some_not_admin env s uid msg (by simpa using h)⟩

theorem edit_single_channel_eq (env : Env) (s : MState) (uid : Int) (text k : String)
    (hk : s.ud.editing_channel = some k) (hadm : is_admin env uid = true) :
    edit_single_channel env s uid text =
      .ok ⟨⟨{ s.data with channels := dictSet s.data.channels k (some text) },
            save_data { s.data with channels := dictSet s.data.channels k (some text) } s.storage,
            s.ud⟩,
           ["Channel " ++ k ++ " updated successfully!", adminMenuMsg],
           some EDIT_CHOOSE_OPTION⟩ := by
  simp only [edit_single_channel, hk]
  rw [admin_start_some_admin _ _ _ _ hadm]

theorem edit_single_channel_st (env : Env) (s : MState) (uid : Int) (text k : String)
    (hk : s.ud.editing_channel = some k) (r : HRes)
    (h : edit_single_channel env s uid text = .ok r) :
    r.st = ⟨{ s.data with channels := dictSet s.data.channels k (some text) },
            save_data { s.data with channels := dictSet s.data.channels k (some text) } s.storage,
            s.ud⟩ := by
  obtain ⟨m, t, hm⟩ := admin_start_some_st env
    ⟨{ s.data with channels := dictSet s.data.channels k (some text) },
     save_data { s.data with channels := dictSet s.data.channels k (some text) } s.storage,
     s.ud⟩ uid text
  simp only [edit_single_channel, hk, hm] at h
  cases h
  rfl

theorem edit_single_image_eq (env : Env) (s : MState) (uid : Int) (text : String) (i : Int)
    (hi : s.ud.editing_image = some i) (h0 : 0 ≤ i) (h1 : i < (s.data.images.length : Int))
    (hadm : is_admin env uid = true) :
    edit_single_image env s uid text =
      .ok ⟨⟨{ s.data with images := s.data.images.set i.toNat text },
            save_data { s.data with images := s.data.images.set i.toNat text } s.storage,
            s.ud⟩,
           ["Image " ++ toString (i + 1) ++ " updated successfully!", adminMenuMsg],
           some EDIT_CHOOSE_OPTION⟩ := by
  simp only [edit_single_image, hi, pyListSet_of_lt h0 h1]
  rw [admin_start_some_admin _ _ _ _ hadm]

theorem edit_single_image_st (env : Env) (s : MState) (uid : Int) (text : String) (i : Int)
    (hi : s.ud.editing_image = some i) (h0 : 0 ≤ i) (h1 : i < (s.data.images.length : Int))
    (r : HRes) (h : edit_single_image env s uid text = .ok r) :
    r.st = ⟨{ s.data with images := s.data.images.set i.toNat text },
            save_data { s.data with images := s.data.images.set i.toNat text } s.storage,
            s.ud⟩ := by
  obtain ⟨m, t, hm⟩ := admin_start_some_st env
    ⟨{ s.data with images := s.data.images.set i.toNat text },
     save_data { s.data with images := s.data.images.set i.toNat text } s.storage,
     s.ud⟩ uid text
  simp only [edit_single_image, hi, pyListSet_of_lt h0 h1, hm] at h
  cases h
  rfl

theorem edit_promo_text_eq (env : Env) (s : MState) (uid : Int) (text : String)
    (hadm : is_admin env uid = true) :
    edit_promo_text env s uid text =
      .ok ⟨⟨{ s.data with promo_text := text },
            save_data { s.data with promo_text := text } s.storage, s.ud⟩,
           ["Promo text updated successfully!", adminMenuMsg], some EDIT_CHOOSE_OPTION⟩ := by
  simp only [edit_promo_text]
  rw [admin_start_some_admin _ _ _ _ hadm]

theorem edit_promo_link_eq (env : Env) (s : MState) (uid : Int) (text : String)
    (hadm : is_admin env uid = true) :
    edit_promo_link env s uid text =
      .ok ⟨⟨{ s.data with promo_link := text },
            save_data { s.data with promo_link := text } s.storage, s.ud⟩,
           ["Promo link updated successfully!", adminMenuMsg], some EDIT_CHOOSE_OPTION⟩ := by
  simp only [edit_promo_link]
  rw [admin_start_some_admin _ _ _ _ hadm]

theorem edit_jaiho_link_eq (env : Env) (s : MState) (uid : Int) (text : String)
    (hadm : is_admin env uid = true) :
    edit_jaiho_link env s uid text =
      .ok ⟨⟨{ s.data with jaiho_link := text },
            save_data { s.data with jaiho_link := text } s.storage, s.ud⟩,
           ["JaiHo link updated successfully!", adminMenuMsg], some EDIT_CHOOSE_OPTION⟩ := by
  simp only [edit_jaiho_link]
  rw [admin_start_some_admin _ _ _ _ hadm]

theorem edit_claim_link_eq (env : Env) (s : MState) (uid : Int) (text : String)
    (hadm : is_admin env uid = true) :
    edit_claim_link env s uid text =
      .ok ⟨⟨{ s.data with claim_link := text },
            save_data { s.data with claim_link := text } s.storage, s.ud⟩,
           ["Claim link updated successfully!", adminMenuMsg], some EDIT_CHOOSE_OPTION⟩ := by
  simp only [edit_claim_link]
  rw [admin_start_some_admin _ _ _ _ hadm]

theorem edit_promo_text_st (env : Env) (s : MState) (uid : Int) (text : String) (r : HRes)
    (h : edit_promo_text env s uid text = .ok r) :
    r.st = ⟨{ s.data with promo_text := text },
            save_data { s.data with promo_text := text } s.storage, s.ud⟩ := by
  obtain ⟨m, t, hm⟩ := admin_start_some_st env
    ⟨{ s.data with promo_text := text },
     save_data { s.data with promo_text := text } s.storage, s.ud⟩ uid text
  simp only [edit_promo_text, hm] at h
  cases h
  rfl

theorem edit_promo_link_st (env : Env) (s : MState) (uid : Int) (text : String) (r : HRes)
    (h : edit_promo_link env s uid text = .ok r) :
    r.st = ⟨{ s.data with promo_link := text },
            save_data { s.data with promo_link := text } s.storage, s.ud⟩ := by
  obtain ⟨m, t, hm⟩ := admin_start_some_st env
    ⟨{ s.data with promo_link := text },
     save_data { s.data with promo_link := text } s.storage, s.ud⟩ uid text
  simp only [edit_promo_link, hm] at h
  cases h
  rfl

theorem edit_jaiho_link_st (env : Env) (s : MState) (uid : Int) (text : String) (r : HRes)
    (h : edit_jaiho_link env s uid text = .ok r) :
    r.st = ⟨{ s.data with jaiho_link := text },
            save_data { s.data with jaiho_link := text } s.storage, s.ud⟩ := by
  obtain ⟨m, t, hm⟩ := admin_start_some_st env
    ⟨{ s.data with jaiho_link := text },
     save_data { s.data with jaiho_link := text } s.storage, s.ud⟩ uid text
  simp only [edit_jaiho_link, hm] at h
  cases h
  rfl

theorem edit_claim_link_st (env : Env) (s : MState) (uid : Int) (text : String) (r : HRes)
    (h : edit_claim_link env s uid text = .ok r) :
    r.st = ⟨{ s.data with claim_link := text },
            save_data { s.data with claim_link := text } s.storage, s.ud⟩ := by
  obtain ⟨m, t, hm⟩ := admin_start_some_st env
    ⟨{ s.data with claim_link := text },
     save_data { s.data with claim_link := text } s.storage, s.ud⟩ uid text
  simp only [edit_claim_link, hm] at h
  cases h
  rfl

/-- The three chooser handlers and the option menu never touch the record or
the database, whatever callback data they are fed. -/
theorem edit_channels_ok_st (env : Env) (s : MState) (uid : Int) (cb : String) (r : HRes)
    (h : edit_channels env s uid cb = .ok r) :
    r.st.data = s.data ∧ r.st.storage = s.storage := by
  by_cases h1 : pyStartsWith cb "edit_channel_"
  · simp only [edit_channels, h1, if_true] at h
    cases h
    exact ⟨rfl, rfl⟩
  · by_cases h2 : cb == "back"
    · simp only [edit_channels, h1, Bool.false_eq_true, if_false, h2, if_true,
        admin_start_none] at h
      exact Except.noConfusion h
    · simp only [edit_channels, h1, h2, Bool.false_eq_true, if_false] at h
      cases h
      exact ⟨rfl, rfl⟩

theorem edit_images_ok_st (env : Env) (s : MState) (uid : Int) (cb : String) (r : HRes)
    (h : edit_images env s uid cb = .ok r) :
    r.st.data = s.data ∧ r.st.storage = s.storage := by
  by_cases h1 : pyStartsWith cb "edit_image_"
  · simp only [edit_images, h1, if_true] at h
    cases hn : pyInt? (lastSegment cb) with
    | none => rw [hn] at h; cases h
    | some n =>
      rw [hn] at h
      cases h
      exact ⟨rfl, rfl⟩
  · by_cases h2 : cb == "back"
    · simp only [edit_images, h1, Bool.false_eq_true, if_false, h2, if_true,
        admin_start_none] at h
      exact Except.noConfusion h
    · simp only [edit_images, h1, h2, Bool.false_eq_true, if_false] at h
      cases h
      exact ⟨rfl, rfl⟩

theorem edit_texts_ok_st (env : Env) (s : MState) (uid : Int) (cb : String) (r : HRes)
    (h : edit_texts env s uid cb = .ok r) :
    r.st.data = s.data ∧ r.st.storage = s.storage := by
  by_cases h1 : cb == "edit_promo_text"
  · simp only [edit_texts, h1, if_true] at h; cases h; exact ⟨rfl, rfl⟩
  by_cases h2 : cb == "edit_promo_link"
  · simp only [edit_texts, h1, h2, Bool.false_eq_true, if_false, if_true] at h
    cases h; exact ⟨rfl, rfl⟩
  by_cases h3 : cb == "edit_jaiho_link"
  · simp only [edit_texts, h1, h2, h3, Bool.false_eq_true, if_false, if_true] at h
    cases h; exact ⟨rfl, rfl⟩
  by_cases h4 : cb == "edit_claim_link"
  · simp only [edit_texts, h1, h2, h3, h4, Bool.false_eq_true, if_false, if_true] at h
    cases h; exact ⟨rfl, rfl⟩
  by_cases h5 : cb == "back"
  · simp only [edit_texts, h1, h2, h3, h4, h5, Bool.false_eq_true, if_false, if_true,
      admin_start_none] at h
    exact Except.noConfusion h
  · simp only [edit_texts, h1, h2, h3, h4, h5, Bool.false_eq_true, if_false] at h
    cases h; exact ⟨rfl, rfl⟩

theorem except_bind_ok {α β : Type} {x : Except PyErr α} {f : α → Except PyErr β} {r : β}
    (h : (x >>= f) = .ok r) : ∃ v, x = .ok v ∧ f v = .ok r := by
  cases x with
  | error e => simp [Bind.bind, Except.bind] at h
  | ok v => exact ⟨v, rfl, by simpa [Bind.bind, Except.bind] using h⟩

theorem admin_choose_option_ok_st (s : MState) (cb : String) (r : HRes)
    (h : admin_choose_option s cb = .ok r) :
    r.st.data = s.data ∧ r.st.storage = s.storage := by
  by_cases h1 : cb == "edit_channels"
  · simp only [admin_choose_option, h1, if_true] at h
    obtain ⟨v1, hc1, h⟩ := except_bind_ok h
    obtain ⟨v2, hc2, h⟩ := except_bind_ok h
    obtain ⟨v3, hc3, h⟩ := except_bind_ok h
    obtain ⟨v4, hc4, h⟩ := except_bind_ok h
    obtain ⟨v5, hc5, h⟩ := except_bind_ok h
    cases h; exact ⟨rfl, rfl⟩
  by_cases h2 : cb == "edit_images"
  · simp only [admin_choose_option, h1, h2, Bool.false_eq_true, if_false, if_true] at h
    cases h; exact ⟨rfl, rfl⟩
  by_cases h3 : cb == "edit_texts"
  · simp only [admin_choose_option, h1, h2, h3, Bool.false_eq_true, if_false, if_true] at h
    cases h; exact ⟨rfl, rfl⟩
  by_cases h4 : cb == "cancel"
  · simp only [admin_choose_option, h1, h2, h3, h4, Bool.false_eq_true, if_false, if_true] at h
    cases h; exact ⟨rfl, rfl⟩
  · simp only [admin_choose_option, h1, h2, h3, h4, Bool.false_eq_true, if_false] at h
    cases h; exact ⟨rfl, rfl⟩

/-! ## Concrete deployment used by witnesses and counterexamples -/

/-- A fully configured environment: admin id `"1"`, five invite-link channel
defaults, six image defaults, four text defaults. -/
def envA : Env :=
  { bot_token := some "tok", admin_chat_id := some "1",
    channel_1_url := some "https://t.me/+c1", channel_2_url := some "https://t.me/+c2",
    channel_3_url := some "https://t.me/+c3", channel_4_url := some "https://t.me/+c4",
    channel_5_url := some "https://t.me/+c5",
    image_1_url := some "https://e.com/1.jpg", image_2_url := some "https://e.com/2.jpg",
    image_3_url := some "https://e.com/3.jpg", image_4_url := some "https://e.com/4.jpg",
    image_5_url := some "https://e.com/5.jpg", image_6_url := some "https://e.com/6.jpg",
    promo_text_env := some "Get free spins", promo_link_env := some "https://e.com/app",
    jaiho_link_env := some "https://e.com/jaiho", claim_link_env := some "https://e.com/claim" }

/-- The database `init_db` produces from `envA` on first start. -/
def db0 : DbState :=
  ⟨[("1", "https://t.me/+c1"), ("2", "https://t.me/+c2"), ("3", "https://t.me/+c3"),
    ("4", "https://t.me/+c4"), ("5", "https://t.me/+c5")],
   enumFromI 1
     ["https://e.com/1.jpg", "https://e.com/2.jpg", "https://e.com/3.jpg",
      "https://e.com/4.jpg", "https://e.com/5.jpg", "https://e.com/6.jpg"],
   [("promo_text", "Get free spins"), ("promo_link", "https://e.com/app"),
    ("jaiho_link", "https://e.com/jaiho"), ("claim_link", "https://e.com/claim")]⟩

/-- Idle machine state: default record, healthy storage, no pending edit. -/
def mA : MState := ⟨DEFAULT_CONFIG envA, .ok db0, ⟨none, none⟩⟩

/-- State awaiting a value for channel 2. -/
def mAwait2 : MState := ⟨DEFAULT_CONFIG envA, .ok db0, ⟨some "2", none⟩⟩

/-- State awaiting a value for channel 1 while the storage is failing. -/
def mErr1 : MState := ⟨DEFAULT_CONFIG envA, .err, ⟨some "1", none⟩⟩

/-- State the spoofed callback `edit_channel_6` produces. -/
def mAwait6 : MState := ⟨DEFAULT_CONFIG envA, .ok db0, ⟨some "6", none⟩⟩

/-- State awaiting a value for image 3 (internal index 2). -/
def mAwaitImg3 : MState := ⟨DEFAULT_CONFIG envA, .ok db0, ⟨none, some 2⟩⟩

/-- Environment whose `BOT_TOKEN` is unset. -/
def envNoTok : Env := { envA with bot_token := none }

/-- Environment whose `ADMIN_CHAT_ID` is unset. -/
def envNoAdmin : Env := { envA with admin_chat_id := none }

/-- Environment whose first channel default is not a URL at all. -/
def envMal : Env := { envA with channel_1_url := some "zzz" }

/-! ## Claims -/

/-- C3: for every user identity whose string form differs from the configured
authorized admin id, `admin_start` replies the refusal and returns
`ConversationHandler.END` with the machine state (record, storage, session)
untouched, so no wizard state is created; the admin identity gets the fresh
top-level menu, i.e. the `MENU` state `EDIT_CHOOSE_OPTION`. -/
theorem c3_authorization (env : Env) (s : MState) (uid : Int) (aid : String) (msg : String)
    (ha : env.admin_chat_id = some aid) :
    (toString uid ≠ aid →
       admin_start env s uid (some msg) = .ok ⟨s, [unauthorizedMsg], some END⟩) ∧
    (toString uid = aid →
       admin_start env s uid (some msg) = .ok ⟨s, [adminMenuMsg], some EDIT_CHOOSE_OPTION⟩) := by
  constructor
  · intro hne
    apply admin_start_some_not_admin
    simp [is_admin, ha, hne]
  · intro heq
    apply admin_start_some_admin
    simp [is_admin, ha, heq]

/-- C3 witness: user 2 is refused with the state unchanged, user 1 (the
configured admin) gets the menu. -/
theorem c3_witness :
    (toString (2 : Int) ≠ "1" ∧
       admin_start envA mA 2 (some "/admin") = .ok ⟨mA, [unauthorizedMsg], some END⟩) ∧
    (toString (1 : Int) = "1" ∧
       admin_start envA mA 1 (some "/admin") = .ok ⟨mA, [adminMenuMsg], some EDIT_CHOOSE_OPTION⟩) :=
  ⟨⟨by decide, (c3_authorization envA mA 2 "1" "/admin" rfl).1 (by decide)⟩,
   ⟨by decide, (c3_authorization envA mA 1 "1" "/admin" rfl).2 (by decide)⟩⟩

/-- C6 (amended): `load_data` never raises.  When any table access raises a
`sqlite3.Error` (absent file, corrupt file) it returns `DEFAULT_CONFIG`; but
when the tables exist and are merely empty it returns a record with empty
channels and images (only the text fields fall back to the defaults), not the
documented default record. -/
theorem c6_load_total (env : Env) :
    load_data env .err = DEFAULT_CONFIG env ∧
    load_data env (.ok ⟨[], [], []⟩) =
      { channels := [], images := [],
        promo_text := (DEFAULT_CONFIG env).promo_text,
        promo_link := (DEFAULT_CONFIG env).promo_link,
        jaiho_link := (DEFAULT_CONFIG env).jaiho_link,
        claim_link := (DEFAULT_CONFIG env).claim_link } :=
  ⟨rfl, rfl⟩

/-- C6 counterexample: on a database whose three tables exist but hold no
rows — empty durable storage — `load_data` does not return the documented
default record (the default has five channels, the loaded record none). -/
theorem c6_counterexample :
    load_data envA (.ok ⟨[], [], []⟩) ≠ DEFAULT_CONFIG envA := by decide

/-- C9: selecting UI "Image n" (callback `edit_image_n`) stores the 0-based
index `n - 1` in the session and prompts with the 1-based number; the
subsequent submission replaces exactly `images[n - 1]` and the confirmation
echoes the 1-based number `n`. -/
theorem c9_image_indexing (env : Env) (s : MState) (uid : Int) (cb text : String) (n : Int)
    (hcb : pyStartsWith cb "edit_image_" = true)
    (hn : pyInt? (lastSegment cb) = some n) (h1 : 1 ≤ n)
    (hlen : n ≤ (s.data.images.length : Int))
    (hadm : is_admin env uid = true) :
    edit_images env s uid cb =
      .ok ⟨{ s with ud := { s.ud with editing_image := some (n - 1) } },
           ["Enter new URL for Image " ++ toString n ++ ":"], some EDIT_SINGLE_IMAGE⟩ ∧
    edit_single_image env { s with ud := { s.ud with editing_image := some (n - 1) } } uid text =
      .ok ⟨⟨{ s.data with images := s.data.images.set (n - 1).toNat text },
            save_data { s.data with images := s.data.images.set (n - 1).toNat text } s.storage,
            { s.ud with editing_image := some (n - 1) }⟩,
           ["Image " ++ toString n ++ " updated successfully!", adminMenuMsg],
           some EDIT_CHOOSE_OPTION⟩ := by
  have harith : n - 1 + 1 = n := by ring
  constructor
  · simp only [edit_images, hcb, if_true, hn, harith]
  · have h2 := edit_single_image_eq env
      { s with ud := { s.ud with editing_image := some (n - 1) } } uid text (n - 1)
      rfl (by omega) ((by omega : n - 1 < (s.data.images.length : Int))) hadm
    rw [harith] at h2
    exact h2

/-- C9 witness: on the default record (six images), callback `edit_image_3`
stores index 2 and the submission replaces `images[2]`, confirming "Image 3". -/
theorem c9_witness :
    pyStartsWith "edit_image_3" "edit_image_" = true ∧
    pyInt? (lastSegment "edit_image_3") = some 3 ∧
    (edit_images envA mA 1 "edit_image_3" =
      .ok ⟨mAwaitImg3, ["Enter new URL for Image " ++ toString (3 : Int) ++ ":"],
           some EDIT_SINGLE_IMAGE⟩ ∧
     edit_single_image envA mAwaitImg3 1 "https://example.com/x.jpg" =
      .ok ⟨⟨{ mA.data with images := mA.data.images.set 2 "https://example.com/x.jpg" },
            save_data { mA.data with images := mA.data.images.set 2 "https://example.com/x.jpg" }
              mA.storage,
            ⟨none, some 2⟩⟩,
           ["Image " ++ toString (3 : Int) ++ " updated successfully!", adminMenuMsg],
           some EDIT_CHOOSE_OPTION⟩) :=
  ⟨by decide, by decide,
   c9_image_indexing envA mA 1 "edit_image_3" "https://example.com/x.jpg" 3
     (by decide) (by decide) (by decide) (by decide) (by decide)⟩

/-- C10: each wizard leaf edit is frame-exact.  A channel edit leaves the
images and the four text fields as they were and every other channel key
unchanged; an in-range image edit leaves the channels, the four text fields,
the image count and every other image position unchanged; each text-field
edit leaves the channels, the images and the other three text fields
unchanged. -/
theorem c10_frame :
    (∀ (env : Env) (s : MState) (uid : Int) (text k : String) (r : HRes),
       s.ud.editing_channel = some k →
       edit_single_channel env s uid text = .ok r →
       r.st.data.images = s.data.images ∧
       r.st.data.promo_text = s.data.promo_text ∧
       r.st.data.promo_link = s.data.promo_link ∧
       r.st.data.jaiho_link = s.data.jaiho_link ∧
       r.st.data.claim_link = s.data.claim_link ∧
       ∀ k2, k2 ≠ k → dictLookup r.st.data.channels k2 = dictLookup s.data.channels k2) ∧
    (∀ (env : Env) (s : MState) (uid : Int) (text : String) (i : Int) (r : HRes),
       s.ud.editing_image = some i → 0 ≤ i → i < (s.data.images.length : Int) →
       edit_single_image env s uid text = .ok r →
       r.st.data.channels = s.data.channels ∧
       r.st.data.promo_text = s.data.promo_text ∧
       r.st.data.promo_link = s.data.promo_link ∧
       r.st.data.jaiho_link = s.data.jaiho_link ∧
       r.st.data.claim_link = s.data.claim_link ∧
       r.st.data.images.length = s.data.images.length ∧
       ∀ j : Nat, j ≠ i.toNat → r.st.data.images[j]? = s.data.images[j]?) ∧
    (∀ (env : Env) (s : MState) (uid : Int) (text : String) (r : HRes),
       edit_promo_text env s uid text = .ok r →
       r.st.data.channels = s.data.channels ∧ r.st.data.images = s.data.images ∧
       r.st.data.promo_link = s.data.promo_link ∧
       r.st.data.jaiho_link = s.data.jaiho_link ∧
       r.st.data.claim_link = s.data.claim_link) ∧
    (∀ (env : Env) (s : MState) (uid : Int) (text : String) (r : HRes),
       edit_promo_link env s uid text = .ok r →
       r.st.data.channels = s.data.channels ∧ r.st.data.images = s.data.images ∧
       r.st.data.promo_text = s.data.promo_text ∧
       r.st.data.jaiho_link = s.data.jaiho_link ∧
       r.st.data.claim_link = s.data.claim_link) ∧
    (∀ (env : Env) (s : MState) (uid : Int) (text : String) (r : HRes),
       edit_jaiho_link env s uid text = .ok r →
       r.st.data.channels = s.data.channels ∧ r.st.data.images = s.data.images ∧
       r.st.data.promo_text = s.data.promo_text ∧
       r.st.data.promo_link = s.data.promo_link ∧
       r.st.data.claim_link = s.data.claim_link) ∧
    (∀ (env : Env) (s : MState) (uid : Int) (text : String) (r : HRes),
       edit_claim_link env s uid text = .ok r →
       r.st.data.channels = s.data.channels ∧ r.st.data.images = s.data.images ∧
       r.st.data.promo_text = s.data.promo_text ∧
       r.st.data.promo_link = s.data.promo_link ∧
       r.st.data.jaiho_link = s.data.jaiho_link) := by
  refine ⟨?_, ?_, ?_, ?_, ?_, ?_⟩
  · intro env s uid text k r hk h
    rw [edit_single_channel_st env s uid text k hk r h]
    exact ⟨rfl, rfl, rfl, rfl, rfl, fun k2 hk2 => dictLookup_dictSet_ne _ _ _ _ hk2⟩
  · intro env s uid text i r hi h0 h1 h
    rw [edit_single_image_st env s uid text i hi h0 h1 r h]
    refine ⟨rfl, rfl, rfl, rfl, rfl, List.length_set _ _ _, ?_⟩
    intro j hj
    exact List.getElem?_set_ne (fun hc => hj hc.symm)
  · intro env s uid text r h
    rw [edit_promo_text_st env s uid text r h]
    exact ⟨rfl, rfl, rfl, rfl, rfl⟩
  · intro env s uid text r h
    rw [edit_promo_link_st env s uid text r h]
    exact ⟨rfl, rfl, rfl, rfl, rfl⟩
  · intro env s uid text r h
    rw [edit_jaiho_link_st env s uid text r h]
    exact ⟨rfl, rfl, rfl, rfl, rfl⟩
  · intro env s uid text r h
    rw [edit_claim_link_st env s uid text r h]
    exact ⟨rfl, rfl, rfl, rfl, rfl⟩

/-- C10 witness: editing channel 2 on the default record leaves channel 1 and
the rest of the record intact. -/
theorem c10_witness :
    mAwait2.ud.editing_channel = some "2" ∧
    ∀ r, edit_single_channel envA mAwait2 1 "https://t.me/+new" = .ok r →
      r.st.data.images = mAwait2.data.images ∧
      r.st.data.promo_text = mAwait2.data.promo_text ∧
      r.st.data.promo_link = mAwait2.data.promo_link ∧
      r.st.data.jaiho_link = mAwait2.data.jaiho_link ∧
      r.st.data.claim_link = mAwait2.data.claim_link ∧
      ∀ k2, k2 ≠ "2" → dictLookup r.st.data.channels k2 = dictLookup mAwait2.data.channels k2 :=
  ⟨rfl, fun r h => c10_frame.1 envA mAwait2 1 "https://t.me/+new" "2" r rfl h⟩

/-- C1 counterexample: the string `"not-a-url"` fails both spec validators,
yet submitting it for channel 2 mutates the record, persists it (the storage
changes), reports success, and returns to the menu state — instead of
staying in the `AWAIT_CHANNEL_VALUE` state with no mutation. -/
theorem c1_counterexample :
    isGenericUrl "not-a-url" = false ∧
    isChannelUrl "not-a-url" = false ∧
    (edit_single_channel envA mAwait2 1 "not-a-url").map
        (fun r => (r.ret, dictLookup r.st.data.channels "2",
                   decide (r.st.storage = mAwait2.storage), r.msgs))
      = .ok (some EDIT_CHOOSE_OPTION, some (some "not-a-url"), false,
             ["Channel 2 updated successfully!", adminMenuMsg]) := by
  refine ⟨by decide, by decide, by decide⟩

/-- C1 (amended): no `AWAIT_*` handler runs any validator.  Every submitted
text value — valid URL or not — is accepted unconditionally: the
corresponding field is overwritten, `save_data` is invoked, a success message
is sent, and the session returns to the menu state `EDIT_CHOOSE_OPTION`; no
violation is ever reported and the handler never stays in its `AWAIT_*`
state. -/
theorem c1_no_validation :
    (∀ (env : Env) (s : MState) (uid : Int) (text k : String),
       s.ud.editing_channel = some k → is_admin env uid = true →
       edit_single_channel env s uid text =
         .ok ⟨⟨{ s.data with channels := dictSet s.data.channels k (some text) },
               save_data { s.data with channels := dictSet s.data.channels k (some text) }
                 s.storage, s.ud⟩,
              ["Channel " ++ k ++ " updated successfully!", adminMenuMsg],
              some EDIT_CHOOSE_OPTION⟩) ∧
    (∀ (env : Env) (s : MState) (uid : Int) (text : String) (i : Int),
       s.ud.editing_image = some i → 0 ≤ i → i < (s.data.images.length : Int) →
       is_admin env uid = true →
       edit_single_image env s uid text =
         .ok ⟨⟨{ s.data with images := s.data.images.set i.toNat text },
               save_data { s.data with images := s.data.images.set i.toNat text } s.storage,
               s.ud⟩,
              ["Image " ++ toString (i + 1) ++ " updated successfully!", adminMenuMsg],
              some EDIT_CHOOSE_OPTION⟩) ∧
    (∀ (env : Env) (s : MState) (uid : Int) (text : String), is_admin env uid = true →
       edit_promo_text env s uid text =
         .ok ⟨⟨{ s.data with promo_text := text },
               save_data { s.data with promo_text := text } s.storage, s.ud⟩,
              ["Promo text updated successfully!", adminMenuMsg], some EDIT_CHOOSE_OPTION⟩) ∧
    (∀ (env : Env) (s : MState) (uid : Int) (text : String), is_admin env uid = true →
       edit_promo_link env s uid text =
         .ok ⟨⟨{ s.data with promo_link := text },
               save_data { s.data with promo_link := text } s.storage, s.ud⟩,
              ["Promo link updated successfully!", adminMenuMsg], some EDIT_CHOOSE_OPTION⟩) ∧
    (∀ (env : Env) (s : MState) (uid : Int) (text : String), is_admin env uid = true →
       edit_jaiho_link env s uid text =
         .ok ⟨⟨{ s.data with jaiho_link := text },
               save_data { s.data with jaiho_link := text } s.storage, s.ud⟩,
              ["JaiHo link updated successfully!", adminMenuMsg], some EDIT_CHOOSE_OPTION⟩) ∧
    (∀ (env : Env) (s : MState) (uid : Int) (text : String), is_admin env uid = true →
       edit_claim_link env s uid text =
         .ok ⟨⟨{ s.data with claim_link := text },
               save_data { s.data with claim_link := text } s.storage, s.ud⟩,
              ["Claim link updated successfully!", adminMenuMsg], some EDIT_CHOOSE_OPTION⟩) :=
  ⟨fun env s uid text k hk hadm => edit_single_channel_eq env s uid text k hk hadm,
   fun env s uid text i hi h0 h1 hadm => edit_single_image_eq env s uid text i hi h0 h1 hadm,
   fun env s uid text hadm => edit_promo_text_eq env s uid text hadm,
   fun env s uid text hadm => edit_promo_link_eq env s uid text hadm,
   fun env s uid text hadm => edit_jaiho_link_eq env s uid text hadm,
   fun env s uid text hadm => edit_claim_link_eq env s uid text hadm⟩

/-- C1 witness: the invalid string `"not-a-url"` is accepted for channel 2. -/
theorem c1_witness :
    mAwait2.ud.editing_channel = some "2" ∧ is_admin envA 1 = true ∧
    edit_single_channel envA mAwait2 1 "not-a-url" =
      .ok ⟨⟨{ mAwait2.data with channels := dictSet mAwait2.data.channels "2" (some "not-a-url") },
            save_data
              { mAwait2.data with channels := dictSet mAwait2.data.channels "2" (some "not-a-url") }
              mAwait2.storage, mAwait2.ud⟩,
           ["Channel " ++ "2" ++ " updated successfully!", adminMenuMsg],
           some EDIT_CHOOSE_OPTION⟩ :=
  ⟨rfl, by decide, c1_no_validation.1 envA mAwait2 1 "not-a-url" "2" rfl (by decide)⟩

/-- C4 counterexample: the spoofed callback `edit_channel_6` (a slot the UI
never offers) is accepted by `edit_channels`, and the following submission
adds a sixth key `"6"` to the channels dict — the five-entry invariant does
not survive garbage callback data followed by a value. -/
theorem c4_counterexample :
    mA.data.channels.map Prod.fst = ["1", "2", "3", "4", "5"] ∧
    edit_channels envA mA 1 "edit_channel_6" =
      .ok ⟨mAwait6, ["Enter new URL for Channel 6:"], some EDIT_SINGLE_CHANNEL⟩ ∧
    (edit_single_channel envA mAwait6 1 "https://t.me/+new").map
        (fun r => r.st.data.channels.map Prod.fst)
      = .ok ["1", "2", "3", "4", "5", "6"] := by
  refine ⟨by decide, by decide, by decide⟩

/-- C4 (amended): the default record has exactly the channel keys `"1".."5"`;
a channel submission preserves the key set provided the pending target is an
existing key (the bot's own keyboards only offer `1..5`), but a spoofed
target outside them adds a key; the chooser handlers themselves
(`edit_channels`, `edit_images`, `edit_texts`, `admin_choose_option`) never
change the record or the database, whatever callback data they are fed. -/
theorem c4_channels_invariant :
    (∀ env : Env, (DEFAULT_CONFIG env).channels.map Prod.fst = ["1", "2", "3", "4", "5"]) ∧
    (∀ (env : Env) (s : MState) (uid : Int) (text k : String) (r : HRes),
       s.ud.editing_channel = some k → k ∈ s.data.channels.map Prod.fst →
       edit_single_channel env s uid text = .ok r →
       r.st.data.channels.map Prod.fst = s.data.channels.map Prod.fst) ∧
    (∀ (env : Env) (s : MState) (uid : Int) (cb : String) (r : HRes),
       edit_channels env s uid cb = .ok r → r.st.data = s.data ∧ r.st.storage = s.storage) ∧
    (∀ (env : Env) (s : MState) (uid : Int) (cb : String) (r : HRes),
       edit_images env s uid cb = .ok r → r.st.data = s.data ∧ r.st.storage = s.storage) ∧
    (∀ (env : Env) (s : MState) (uid : Int) (cb : String) (r : HRes),
       edit_texts env s uid cb = .ok r → r.st.data = s.data ∧ r.st.storage = s.storage) ∧
    (∀ (s : MState) (cb : String) (r : HRes),
       admin_choose_option s cb = .ok r → r.st.data = s.data ∧ r.st.storage = s.storage) := by
  refine ⟨fun env => rfl, ?_, edit_channels_ok_st, edit_images_ok_st, edit_texts_ok_st,
    admin_choose_option_ok_st⟩
  intro env s uid text k r hk hmem h
  rw [edit_single_channel_st env s uid text k hk r h]
  exact dictSet_map_fst_of_mem s.data.channels k (some text) hmem

/-- C4 witness: a valid-slot submission keeps the keys `"1".."5"`, and
`edit_channels` fed the garbage callback `"garbage"` leaves the record and
database unchanged. -/
theorem c4_witness :
    (mAwait2.ud.editing_channel = some "2" ∧ "2" ∈ mAwait2.data.channels.map Prod.fst ∧
     ∀ r, edit_single_channel envA mAwait2 1 "https://t.me/+new" = .ok r →
       r.st.data.channels.map Prod.fst = mAwait2.data.channels.map Prod.fst) ∧
    (∀ r, edit_channels envA mA 1 "garbage" = .ok r →
       r.st.data = mA.data ∧ r.st.storage = mA.storage) :=
  ⟨⟨rfl, by decide,
    fun r h => c4_channels_invariant.2.1 envA mAwait2 1 "https://t.me/+new" "2" r rfl
      (by decide) h⟩,
   fun r h => c4_channels_invariant.2.2.1 envA mA 1 "garbage" r h⟩

/-- C7 counterexample: with failing storage, submitting a valid URL for
channel 1 is reported as a success (the only messages are the success
confirmation and the re-rendered menu — no transient-error report), and the
session moves to the menu state rather than keeping the prior `AWAIT` state. -/
theorem c7_counterexample :
    (edit_single_channel envA mErr1 1 "https://t.me/+new").map
        (fun r => (r.msgs, r.st.storage, r.ret,
                   decide (r.st.data = mErr1.data)))
      = .ok (["Channel 1 updated successfully!", adminMenuMsg], Storage.err,
             some EDIT_CHOOSE_OPTION, false) := by
  decide

/-- C7 (amended): when the storage write fails, `save_data` swallows the
error: the handler does not crash, the in-memory record is left mutated while
the database is untouched, but the admin is told the update succeeded and the
session returns to the menu state (the prior `AWAIT` state is not kept and no
transient error is reported). -/
theorem c7_swallowed_write_failure (env : Env) (s : MState) (uid : Int) (k text : String)
    (hs : s.storage = .err) (hk : s.ud.editing_channel = some k)
    (hadm : is_admin env uid = true) :
    edit_single_channel env s uid text =
      .ok ⟨⟨{ s.data with channels := dictSet s.data.channels k (some text) }, .err, s.ud⟩,
           ["Channel " ++ k ++ " updated successfully!", adminMenuMsg],
           some EDIT_CHOOSE_OPTION⟩ := by
  have h2 := edit_single_channel_eq env s uid text k hk hadm
  rw [hs] at h2
  exact h2

/-- C7 witness: failing storage, channel 1, valid URL. -/
theorem c7_witness :
    mErr1.storage = .err ∧ mErr1.ud.editing_channel = some "1" ∧ is_admin envA 1 = true ∧
    edit_single_channel envA mErr1 1 "https://t.me/+new" =
      .ok ⟨⟨{ mErr1.data with channels := dictSet mErr1.data.channels "1" (some "https://t.me/+new") },
            .err, mErr1.ud⟩,
           ["Channel " ++ "1" ++ " updated successfully!", adminMenuMsg],
           some EDIT_CHOOSE_OPTION⟩ :=
  ⟨rfl, rfl, by decide,
   c7_swallowed_write_failure envA mErr1 1 "1" "https://t.me/+new" rfl rfl (by decide)⟩

/-- C8 counterexample: with the credential and admin id present but the
default URL for channel 1 being `"zzz"` — not a URL under the spec's own
validator — the process starts up and accepts traffic instead of rejecting
the configuration and exiting. -/
theorem c8_counterexample :
    isGenericUrl "zzz" = false ∧ isChannelUrl "zzz" = false ∧
    (pymain envMal (.ok ⟨[], [], []⟩)).isRunning = true := by
  refine ⟨by decide, by decide, by decide⟩

/-- C8 (amended): at startup only the bot credential and the admin identity
are validated — a missing or empty `BOT_TOKEN` or `ADMIN_CHAT_ID` exits with
code 1 before any traffic; once both are truthy the process initialises the
database and starts serving without validating a single default URL. -/
theorem c8_startup_checks (env : Env) (st : Storage) :
    (truthy env.bot_token = false → pymain env st = .exited 1) ∧
    (truthy env.bot_token = true → truthy env.admin_chat_id = false →
       pymain env st = .exited 1) ∧
    (∀ st1, truthy env.bot_token = true → truthy env.admin_chat_id = true →
       init_db env st = some st1 →
       pymain env st = .running ⟨load_data env st1, st1, ⟨none, none⟩⟩) := by
  refine ⟨fun h1 => ?_, fun h1 h2 => ?_, fun st1 h1 h2 h3 => ?_⟩
  · simp [pymain, h1]
  · simp [pymain, h1, h2]
  · simp [pymain, h1, h2, h3]

/-- C8 witness: a missing token exits, a missing admin id exits, and the
fully configured `envA` reaches the running state untouched by URL checks. -/
theorem c8_witness :
    (truthy envNoTok.bot_token = false ∧ pymain envNoTok (.ok db0) = .exited 1) ∧
    (truthy envNoAdmin.bot_token = true ∧ truthy envNoAdmin.admin_chat_id = false ∧
       pymain envNoAdmin (.ok db0) = .exited 1) ∧
    (truthy envA.bot_token = true ∧ truthy envA.admin_chat_id = true ∧
       init_db envA (.ok db0) = some (.ok db0) ∧
       pymain envA (.ok db0) = .running ⟨load_data envA (.ok db0), .ok db0, ⟨none, none⟩⟩) :=
  ⟨⟨rfl, (c8_startup_checks envNoTok (.ok db0)).1 rfl⟩,
   ⟨by decide, rfl, (c8_startup_checks envNoAdmin (.ok db0)).2.1 (by decide) rfl⟩,
   ⟨by decide, by decide, by decide,
    (c8_startup_checks envA (.ok db0)).2.2 (.ok db0) (by decide) (by decide) (by decide)⟩⟩

/-- C5: on every well-formed persisted state (unique channel ids, image ids
`1..n` in order, exactly the four text rows), `save_data` applied to the
record `load_data` just read writes back exactly the rows that were there:
`save(load())` is a no-op on the database. -/
theorem c5_save_load_roundtrip (env : Env) (db : DbState) (h : WfDb db) :
    save_data (load_data env (.ok db)) (.ok db) = .ok db := by
  obtain ⟨dbc, dbi, dbt⟩ := db
  obtain ⟨hch, him, htx⟩ := h
  simp only at hch him htx
  have hany : ((dbc.map (fun p => (p.1, some p.2))).any fun p => p.2 == none) = false := by
    rw [List.any_eq_false]
    rintro ⟨k, v⟩ hp
    simp only [List.mem_map] at hp
    obtain ⟨q, hq, heq⟩ := hp
    cases heq
    simp
  have hstrip : stripVals (dbc.map fun p => (p.1, some p.2)) = dbc := by
    simp only [stripVals, List.map_map]
    have hfun : ((fun p : String × Option String => (p.1, p.2.getD "")) ∘
        fun p : String × String => (p.1, some p.2)) = id := by
      funext p
      cases p
      rfl
    rw [hfun, List.map_id]
  have hC : (dbc.map (fun p => (p.1, some p.2))).foldl
      (fun rs p => rowUpsert rs p.1 (p.2.getD "")) dbc = dbc := by
    rw [foldl_rowUpsert_strip, hstrip, foldl_rowUpsert dbc dbc hch, filter_not_keyElem_self]
    rfl
  have hsort : sortRows dbi = dbi := by
    apply sortRows_of_chain
    rw [him]
    exact idsChain_enumFromI _ 1
  have hI : enumFromI 1 ((sortRows dbi).map Prod.snd) = dbi := by
    rw [hsort]
    exact him.symm
  rcases dbt with _ | ⟨⟨k1, v1⟩, _ | ⟨⟨k2, v2⟩, _ | ⟨⟨k3, v3⟩, _ | ⟨⟨k4, v4⟩, _ | ⟨p5, rest⟩⟩⟩⟩⟩ <;>
    simp only [textKeys, List.map_cons, List.map_nil, List.cons.injEq,
      List.map_eq_nil_iff, List.cons_ne_nil, List.nil_eq, and_true, and_false,
      false_and] at htx
  obtain ⟨rfl, rfl, rfl, rfl⟩ := htx
  simp only [load_data, save_data, hany, Bool.false_eq_true, if_false]
  rw [hC, hI]
  rfl

/-- C5 witness: the database the first start seeds from `envA` round-trips. -/
theorem c5_witness :
    WfDb db0 ∧ save_data (load_data envA (.ok db0)) (.ok db0) = .ok db0 :=
  ⟨by decide, c5_save_load_roundtrip envA db0 (by decide)⟩

/-- C2: from the menu, choosing "Edit Channels", then channel `k ∈ 1..5`,
then submitting a valid channel URL `u`, ends back in the menu state
(`EDIT_CHOOSE_OPTION`): the in-memory record maps `k` to `u`, the channels
table persists the row `(k, u)`, and the success message is sent. -/
theorem c2_edit_channel_success (env : Env) (s : MState) (uid : Int) (db : DbState)
    (k u : String)
    (hadm : is_admin env uid = true)
    (hkeys : s.data.channels.map Prod.fst = ["1", "2", "3", "4", "5"])
    (hsome : ∀ p ∈ s.data.channels, p.2 ≠ none)
    (hk : k ∈ (["1", "2", "3", "4", "5"] : List String))
    (hdb : s.storage = .ok db)
    (_hurl : isChannelUrl u = true) :
    admin_choose_option s "edit_channels"
      = .ok ⟨s, ["Select channel to edit:"], some EDIT_CHANNELS⟩ ∧
    edit_channels env s uid ("edit_channel_" ++ k)
      = .ok ⟨{ s with ud := { s.ud with editing_channel := some k } },
             ["Enter new URL for Channel " ++ k ++ ":"], some EDIT_SINGLE_CHANNEL⟩ ∧
    edit_single_channel env { s with ud := { s.ud with editing_channel := some k } } uid u
      = .ok ⟨⟨{ s.data with channels := dictSet s.data.channels k (some u) },
              save_data { s.data with channels := dictSet s.data.channels k (some u) } s.storage,
              { s.ud with editing_channel := some k }⟩,
             ["Channel " ++ k ++ " updated successfully!", adminMenuMsg],
             some EDIT_CHOOSE_OPTION⟩ ∧
    dictLookup (dictSet s.data.channels k (some u)) k = some (some u) ∧
    ∃ db2, save_data { s.data with channels := dictSet s.data.channels k (some u) } s.storage
             = .ok db2 ∧ dictLookup db2.channels k = some u := by
  have hkm : k ∈ s.data.channels.map Prod.fst := by rw [hkeys]; exact hk
  obtain ⟨w1, hw1⟩ := dictLookup_some_of (m := s.data.channels) (k := "1")
    (by rw [hkeys]; decide) hsome
  obtain ⟨w2, hw2⟩ := dictLookup_some_of (m := s.data.channels) (k := "2")
    (by rw [hkeys]; decide) hsome
  obtain ⟨w3, hw3⟩ := dictLookup_some_of (m := s.data.channels) (k := "3")
    (by rw [hkeys]; decide) hsome
  obtain ⟨w4, hw4⟩ := dictLookup_some_of (m := s.data.channels) (k := "4")
    (by rw [hkeys]; decide) hsome
  obtain ⟨w5, hw5⟩ := dictLookup_some_of (m := s.data.channels) (k := "5")
    (by rw [hkeys]; decide) hsome
  have hb1 : channelLabel s.data.channels "1" = .ok (pyTake w1 20) := by
    simp [channelLabel, hw1]
  have hb2 : channelLabel s.data.channels "2" = .ok (pyTake w2 20) := by
    simp [channelLabel, hw2]
  have hb3 : channelLabel s.data.channels "3" = .ok (pyTake w3 20) := by
    simp [channelLabel, hw3]
  have hb4 : channelLabel s.data.channels "4" = .ok (pyTake w4 20) := by
    simp [channelLabel, hw4]
  have hb5 : channelLabel s.data.channels "5" = .ok (pyTake w5 20) := by
    simp [channelLabel, hw5]
  have hsegpre : lastSegment ("edit_channel_" ++ k) = k ∧
      pyStartsWith ("edit_channel_" ++ k) "edit_channel_" = true := by
    simp only [List.mem_cons, List.not_mem_nil, or_false] at hk
    rcases hk with rfl | rfl | rfl | rfl | rfl <;> exact ⟨by decide, by decide⟩
  refine ⟨?_, ?_, ?_, dictLookup_dictSet_self _ _ _, ?_⟩
  · simp [admin_choose_option, hb1, hb2, hb3, hb4, hb5, Bind.bind, Except.bind]
  · simp only [edit_channels, hsegpre.2, if_true, hsegpre.1]
  · exact edit_single_channel_eq env _ uid u k rfl hadm
  · rw [hdb]
    have hall : ∀ p ∈ dictSet s.data.channels k (some u), p.2 ≠ none :=
      dictSet_all_some hsome
    have hany : ((dictSet s.data.channels k (some u)).any fun p => p.2 == none) = false :=
      any_none_eq_false hall
    have hkeys2 : (dictSet s.data.channels k (some u)).map Prod.fst
        = ["1", "2", "3", "4", "5"] := by
      rw [dictSet_map_fst_of_mem _ _ _ hkm, hkeys]
    have hnodup : ((stripVals (dictSet s.data.channels k (some u))).map Prod.fst).Nodup := by
      rw [stripVals_map_fst, hkeys2]
      decide
    have hkstrip : k ∈ (stripVals (dictSet s.data.channels k (some u))).map Prod.fst := by
      rw [stripVals_map_fst, hkeys2]
      exact hk
    refine ⟨⟨(stripVals (dictSet s.data.channels k (some u))).foldl
               (fun rs q => rowUpsert rs q.1 q.2) db.channels,
             enumFromI 1 s.data.images,
             (textsOf { s.data with channels := dictSet s.data.channels k (some u) }).foldl
               (fun rs p => rowUpsert rs p.1 p.2) db.texts⟩, ?_, ?_⟩
    · simp only [save_data, hany, Bool.false_eq_true, if_false, foldl_rowUpsert_strip]
    · show dictLookup ((stripVals (dictSet s.data.channels k (some u))).foldl
        (fun rs q => rowUpsert rs q.1 q.2) db.channels) k = some u
      rw [foldl_rowUpsert _ _ hnodup, dictLookup_append_right]
      · exact dictLookup_stripVals (dictLookup_dictSet_self _ _ _)
      · intro p hp hc
        rw [List.mem_filter] at hp
        have hpk := hp.2
        have hmem : keyElem p.1
            ((stripVals (dictSet s.data.channels k (some u))).map Prod.fst) = true :=
          keyElem_eq_true (hc ▸ hkstrip)
        rw [hmem] at hpk
        exact Bool.noConfusion hpk

/-- C2 witness: on the default record, editing channel 2 to a new invite
link walks menu → chooser → await → menu, updating and persisting slot 2. -/
theorem c2_witness :
    is_admin envA 1 = true ∧ isChannelUrl "https://t.me/+u2" = true ∧
    (admin_choose_option mA "edit_channels"
       = .ok ⟨mA, ["Select channel to edit:"], some EDIT_CHANNELS⟩ ∧
     edit_channels envA mA 1 ("edit_channel_" ++ "2")
       = .ok ⟨{ mA with ud := { mA.ud with editing_channel := some "2" } },
              ["Enter new URL for Channel " ++ "2" ++ ":"], some EDIT_SINGLE_CHANNEL⟩ ∧
     edit_single_channel envA { mA with ud := { mA.ud with editing_channel := some "2" } } 1
         "https://t.me/+u2"
       = .ok ⟨⟨{ mA.data with channels := dictSet mA.data.channels "2" (some "https://t.me/+u2") },
               save_data
                 { mA.data with channels := dictSet mA.data.channels "2" (some "https://t.me/+u2") }
                 mA.storage,
               { mA.ud with editing_channel := some "2" }⟩,
              ["Channel " ++ "2" ++ " updated successfully!", adminMenuMsg],
              some EDIT_CHOOSE_OPTION⟩ ∧
     dictLookup (dictSet mA.data.channels "2" (some "https://t.me/+u2")) "2"
       = some (some "https://t.me/+u2") ∧
     ∃ db2, save_data
         { mA.data with channels := dictSet mA.data.channels "2" (some "https://t.me/+u2") }
         mA.storage = .ok db2 ∧ dictLookup db2.channels "2" = some "https://t.me/+u2") :=
  ⟨by decide, by decide,
   c2_edit_channel_success envA mA 1 db0 "2" "https://t.me/+u2"
     (by decide) (by decide) (by decide) (by decide) rfl (by decide)⟩

end PromoBot
